import Mathlib

/-!
Verification of the hookify input-validation layer
(`plugins/hookify/utils/validation.py`) and of the PreToolUse transport
boundary (`plugins/hookify/hooks/pretooluse.py`).

Modelling conventions:
* Python `str` values are modelled as `List Nat`, a list of Unicode
  codepoints; `len` is `List.length`, `in` (substring) is `hasSubstring`,
  `str.startswith` is `List.isPrefixOf`.
* The fixed regular expressions of `validation.py` are translated into a
  small regular-expression datatype `RE` with a Brzozowski-derivative
  matcher.  Python `re.search` is modelled by `reSearch` (match anywhere)
  and, for the patterns that start with a word-boundary assertion, by
  `reSearchWB` which requires a word boundary at the match position.
* `re.IGNORECASE` literals are modelled by `CC.litI`, which compares
  codepoints after ASCII lower-casing (`pyLower`), matching the ASCII
  behaviour of Python case-insensitive literals; the word class of the
  boundary assertion is modelled over ASCII word characters.
* `re.compile` (the Python regex parser, outside this repository) is
  abstracted as a parameter of `validate_regex_pattern`: an argument
  `reCompile : List Nat → Option String` returning `none` when the
  pattern compiles and `some msg` when it raises `re.error` carrying
  message `msg`.
-/

/-- ASCII lower-casing of a codepoint, as used by Python case-insensitive
matching on ASCII letters: maps 65..90 (A-Z) to 97..122 (a-z). -/
def pyLower (n : Nat) : Nat :=
  if 65 ≤ n ∧ n ≤ 90 then n + 32 else n

/-- The Python `\s` class over `str`: codepoints with the Unicode
whitespace property as recognised by CPython. -/
def pySpace (n : Nat) : Bool :=
  decide ((9 ≤ n ∧ n ≤ 13) ∨ (28 ≤ n ∧ n ≤ 32) ∨ n = 133 ∨ n = 160 ∨
    n = 5760 ∨ (8192 ≤ n ∧ n ≤ 8202) ∨ n = 8232 ∨ n = 8233 ∨
    n = 8239 ∨ n = 8287 ∨ n = 12288)

/-- The Python `\w` word class, restricted to ASCII: letters, digits and
underscore.  (The word-boundary assertions below are only applied next to
the ASCII letters of the fixed pattern table.) -/
def pyWord (n : Nat) : Bool :=
  decide ((48 ≤ n ∧ n ≤ 57) ∨ (65 ≤ n ∧ n ≤ 90) ∨ (97 ≤ n ∧ n ≤ 122) ∨ n = 95)

/-- Single-character classes occurring in the fixed regexes of
`validation.py`. -/
inductive CC where
  /-- a literal codepoint under `re.IGNORECASE` -/
  | litI (c : Nat)
  /-- a literal codepoint, case-sensitive -/
  | litC (c : Nat)
  /-- `\s` -/
  | space
  /-- `.` (any codepoint except newline) -/
  | dot
  deriving DecidableEq, Repr

/-- Whether a codepoint belongs to a character class. -/
def CC.matches : CC → Nat → Bool
  | .litI c, n => decide (pyLower n = pyLower c)
  | .litC c, n => decide (n = c)
  | .space, n => pySpace n
  | .dot, n => decide (¬ n = 10)

/-- Regular expressions over codepoint classes. -/
inductive RE where
  /-- matches nothing -/
  | emp
  /-- matches the empty string -/
  | eps
  /-- matches one codepoint of the class -/
  | ch (cc : CC)
  /-- concatenation -/
  | cat (a b : RE)
  /-- alternation -/
  | alt (a b : RE)
  /-- Kleene star -/
  | star (a : RE)
  deriving DecidableEq, Repr

/-- Whether a regular expression accepts the empty string. -/
def RE.nullable : RE → Bool
  | .emp => false
  | .eps => true
  | .ch _ => false
  | .cat a b => a.nullable && b.nullable
  | .alt a b => a.nullable || b.nullable
  | .star _ => true

/-- Brzozowski derivative of a regular expression by one codepoint. -/
def RE.deriv : RE → Nat → RE
  | .emp, _ => .emp
  | .eps, _ => .emp
  | .ch cc, n => if cc.matches n then .eps else .emp
  | .cat a b, n =>
      if a.nullable then .alt (.cat (a.deriv n) b) (b.deriv n) else .cat (a.deriv n) b
  | .alt a b, n => .alt (a.deriv n) (b.deriv n)
  | .star a, n => .cat (a.deriv n) (.star a)

/-- Whether `re` matches some prefix of `s` (possibly the empty prefix). -/
def matchesSomePre (re : RE) : List Nat → Bool
  | [] => re.nullable
  | c :: cs => re.nullable || matchesSomePre (re.deriv c) cs

/-- `re.search` without anchors: `re` matches starting at some position of
`s` (including the end-of-string position). -/
def reSearch (re : RE) : List Nat → Bool
  | [] => re.nullable
  | c :: cs => matchesSomePre re (c :: cs) || reSearch re cs

/-- Word-boundary test between an optional previous codepoint and an
optional next codepoint (edges count as non-word). -/
def wordBoundary (l r : Option Nat) : Bool :=
  (l.elim false pyWord) != (r.elim false pyWord)

/-- Scanner for `reSearchWB`: tries every position of `rest`, remembering
the previous codepoint `prev`, and requires a word boundary at the match
position. -/
def searchWBFrom (re : RE) (prev : Option Nat) : List Nat → Bool
  | [] => wordBoundary prev none && re.nullable
  | c :: cs =>
      (wordBoundary prev (some c) && matchesSomePre re (c :: cs)) ||
      searchWBFrom re (some c) cs

/-- `re.search` of a pattern of the form `\b` followed by `re`: matches at
some position lying on a word boundary. -/
def reSearchWB (re : RE) (s : List Nat) : Bool :=
  searchWBFrom re none s

/-- Concatenation of a list of regular expressions. -/
def catList (l : List RE) : RE :=
  l.foldr RE.cat .eps

/-- A sequence of case-insensitive literals, one per character of `s`. -/
def litsI (s : String) : RE :=
  catList (s.data.map fun c => .ch (.litI c.toNat))

/-- A sequence of case-sensitive literals, one per character of `s`. -/
def litsC (s : String) : RE :=
  catList (s.data.map fun c => .ch (.litC c.toNat))

/-- `\s+` -/
def sPlus : RE := .cat (.ch .space) (.star (.ch .space))

/-- `\s*` -/
def sStar : RE := .star (.ch .space)

/-- `.*` -/
def dotStar : RE := .star (.ch .dot)

/-- The codepoints of a Lean string literal, used to write concrete
Python-string inputs. -/
def codes (s : String) : List Nat :=
  s.data.map Char.toNat

/-- Python substring test: `needle in s`. -/
def hasSubstring (needle : List Nat) : List Nat → Bool
  | [] => needle.isEmpty
  | c :: cs => needle.isPrefixOf (c :: cs) || hasSubstring needle cs

/-- `ValidationError` dataclass of `validation.py`. -/
structure ValidationError where
  field : String
  message : String
  severity : String
  deriving DecidableEq, Repr

/-- `InputValidator.MAX_REGEX_LENGTH` -/
def MAX_REGEX_LENGTH : Nat := 500

/-- `InputValidator.MAX_COMMAND_LENGTH` -/
def MAX_COMMAND_LENGTH : Nat := 10000

/-- `InputValidator.MAX_FILE_PATH_LENGTH` -/
def MAX_FILE_PATH_LENGTH : Nat := 4096

/-- `InputValidator.MAX_TEXT_LENGTH` -/
def MAX_TEXT_LENGTH : Nat := 1000000

/-- The empty-path error of `validate_file_path`. -/
def emptyPathErr : ValidationError :=
  ⟨"file_path", "File path cannot be empty", "error"⟩

/-- The length error of `validate_file_path`. -/
def pathLenErr : ValidationError :=
  ⟨"file_path", "File path exceeds maximum length of 4096", "error"⟩

/-- The traversal error of `validate_file_path`. -/
def traversalErr : ValidationError :=
  ⟨"file_path", "Path traversal detected (..)", "error"⟩

/-- The workspace warning of `validate_file_path`. -/
def workspaceWarn : ValidationError :=
  ⟨"file_path", "Absolute path outside workspace", "warning"⟩

/-- `InputValidator.validate_file_path`. -/
def validate_file_path (path : List Nat) : List ValidationError :=
  if path.isEmpty then [emptyPathErr]
  else
    (if path.length > MAX_FILE_PATH_LENGTH then [pathLenErr] else []) ++
    (if hasSubstring (codes "..") path then [traversalErr] else []) ++
    (if (codes "/").isPrefixOf path && !((codes "/workspace").isPrefixOf path)
      then [workspaceWarn] else [])

/-- The length error of `validate_bash_command`. -/
def cmdLenErr : ValidationError :=
  ⟨"command", "Command exceeds maximum length of 10000", "error"⟩

/-- `r'\brm\s+-rf\s+/'` with the leading `\b` handled by `reSearchWB`. -/
def reRmRf : RE := catList [litsI "rm", sPlus, litsI "-rf", sPlus, litsI "/"]

/-- `r'\bchmod\s+777'` with the leading `\b` handled by `reSearchWB`. -/
def reChmod : RE := catList [litsI "chmod", sPlus, litsI "777"]

/-- `r'\beval\s+'` with the leading `\b` handled by `reSearchWB`. -/
def reEval : RE := catList [litsI "eval", sPlus]

/-- `r'\bcurl\s+.*\|\s*bash'` with the leading `\b` handled by
`reSearchWB`. -/
def reCurl : RE := catList [litsI "curl", sPlus, dotStar, litsI "|", sStar, litsI "bash"]

/-- `r'\bwget\s+.*\|\s*bash'` with the leading `\b` handled by
`reSearchWB`. -/
def reWget : RE := catList [litsI "wget", sPlus, dotStar, litsI "|", sStar, litsI "bash"]

/-- The `dangerous_patterns` table of `validate_bash_command`: pairs of a
pattern (searched under `re.IGNORECASE`, each starting with `\b`) and a
human description. -/
def dangerous_patterns : List (RE × String) :=
  [(reRmRf, "Recursive force delete from root"),
   (reChmod, "Overly permissive file permissions"),
   (reEval, "Arbitrary code execution via eval"),
   (reCurl, "Piping remote scripts to bash"),
   (reWget, "Piping remote scripts to bash")]

/-- The warning appended for a matching dangerous pattern. -/
def dangerWarn (description : String) : ValidationError :=
  ⟨"command", "Dangerous pattern detected: " ++ description, "warning"⟩

/-- `InputValidator.validate_bash_command`. -/
def validate_bash_command (command : List Nat) : List ValidationError :=
  if command.isEmpty then []
  else
    (if command.length > MAX_COMMAND_LENGTH then [cmdLenErr] else []) ++
    (dangerous_patterns.filter (fun pd => reSearchWB pd.1 command)).map
      (fun pd => dangerWarn pd.2)

/-- The length error of `validate_regex_pattern`. -/
def regexLenErr : ValidationError :=
  ⟨"pattern", "Regex pattern exceeds maximum length of 500", "error"⟩

/-- The compile error of `validate_regex_pattern`, carrying the `re.error`
message. -/
def regexCompileErr (msg : String) : ValidationError :=
  ⟨"pattern", "Invalid regex pattern: " ++ msg, "error"⟩

/-- The catastrophic-backtracking warning of `validate_regex_pattern`. -/
def backtrackWarn : ValidationError :=
  ⟨"pattern", "Pattern may cause catastrophic backtracking", "warning"⟩

/-- `r'(\.\*){2,}|\(\.\+\){2,}'` (case-sensitive, no word boundary).  The
first alternative is a group holding the literal text `.*`, repeated at
least twice.  In the second alternative every parenthesis is escaped, so
there is no group and `{2,}` binds the final escaped `)`: it matches the
literal text `(.+` followed by two or more `)` characters. -/
def reBacktrack : RE :=
  .alt (catList [litsC ".*", litsC ".*", .star (litsC ".*")])
       (catList [litsC "(.+", litsC "))", .star (litsC ")")])

/-- `InputValidator.validate_regex_pattern`.  `reCompile` abstracts the
Python regex parser `re.compile` (outside this repository): `none` means
the pattern compiles, `some msg` means `re.error` with message `msg`. -/
def validate_regex_pattern (reCompile : List Nat → Option String)
    (pattern : List Nat) : List ValidationError :=
  if pattern.isEmpty then []
  else
    (if pattern.length > MAX_REGEX_LENGTH then [regexLenErr] else []) ++
    (match reCompile pattern with
      | some msg => [regexCompileErr msg]
      | none => []) ++
    (if reSearch reBacktrack pattern then [backtrackWarn] else [])

/-- The length error of `validate_text_length` for field `field_name`. -/
def textLenErr (field_name : String) : ValidationError :=
  ⟨field_name, "Text exceeds maximum length of 1000000", "error"⟩

/-- `InputValidator.validate_text_length`. -/
def validate_text_length (text : List Nat) (field_name : String := "text") :
    List ValidationError :=
  if text.length > MAX_TEXT_LENGTH then [textLenErr field_name] else []

/-- Ambient runtime state a Python call could in principle observe (clock,
process environment).  The `InputValidator` method bodies reference none of
it — only their own constants — so the wrappers below ignore it. -/
structure RuntimeEnv where
  clock : Nat
  environ : List (String × String)

/-- `InputValidator.validate_file_path` invoked in a runtime with ambient
state `env`; the body reads no ambient state. -/
def run_validate_file_path (_env : RuntimeEnv) (path : List Nat) :
    List ValidationError :=
  validate_file_path path

/-- `InputValidator.validate_bash_command` invoked in a runtime with
ambient state `env`; the body reads no ambient state. -/
def run_validate_bash_command (_env : RuntimeEnv) (command : List Nat) :
    List ValidationError :=
  validate_bash_command command

/-- `InputValidator.validate_regex_pattern` invoked in a runtime with
ambient state `env`; the body reads no ambient state. -/
def run_validate_regex_pattern (_env : RuntimeEnv)
    (reCompile : List Nat → Option String) (pattern : List Nat) :
    List ValidationError :=
  validate_regex_pattern reCompile pattern

/-- `InputValidator.validate_text_length` invoked in a runtime with
ambient state `env`; the body reads no ambient state. -/
def run_validate_text_length (_env : RuntimeEnv) (text : List Nat)
    (field_name : String) : List ValidationError :=
  validate_text_length text field_name

/-- JSON values, as produced on stdout by `pretooluse.py`. -/
inductive Json where
  | null
  | str (s : String)
  | arr (elems : List Json)
  | obj (fields : List (String × Json))

/-- Outcome of the body of `pretooluse.py` before its exception handlers
run: either the rule-engine result dictionary, or one of the exception
classes the file handles (plus the module-level import failure). -/
inductive BodyOutcome where
  /-- the `try` block completed and produced `result` -/
  | ok (result : Json)
  /-- `json.JSONDecodeError` while reading stdin -/
  | jsonDecodeError
  /-- `FileNotFoundError` while loading configuration -/
  | fileNotFound
  /-- `PermissionError` while reading configuration -/
  | permissionError
  /-- any other exception, rendered as `str(e)` -/
  | unexpected (msg : String)
  /-- `ImportError` at module load (handled before `main` runs) -/
  | importError (msg : String)

/-- What the transport boundary leaves behind: the JSON values printed to
stdout (structured logs go to stderr) and the process exit status. -/
structure BoundaryResult where
  stdout : List Json
  exitCode : Nat

/-- The transport boundary of `pretooluse.py`: `main`'s `try/except/finally`
plus the module-level `ImportError` handler, as a function of the body's
outcome.  Every branch prints one JSON value and the `finally` block (or
the import handler) exits with status 0. -/
def pretooluse_boundary : BodyOutcome → BoundaryResult
  | .ok result => ⟨[result], 0⟩
  | .jsonDecodeError =>
      ⟨[.obj [("systemMessage", .str "Hookify error: Invalid JSON input")]], 0⟩
  | .fileNotFound => ⟨[.obj []], 0⟩
  | .permissionError =>
      ⟨[.obj [("systemMessage", .str "Hookify error: Permission denied")]], 0⟩
  | .unexpected msg =>
      ⟨[.obj [("systemMessage", .str ("Hookify error: " ++ msg))]], 0⟩
  | .importError msg =>
      ⟨[.obj [("systemMessage", .str ("Hookify import error: " ++ msg)),
        ("error", .obj [("type", .str "ImportError"), ("message", .str msg),
          ("component", .str "pretooluse")])]], 0⟩

set_option maxRecDepth 100000

theorem mem_ite_singleton {α} (c : Prop) [Decidable c] (e x : α) :
    x ∈ (if c then [e] else []) ↔ c ∧ x = e := by
  split <;> simp_all

/-- C10: empty-string inputs short-circuit the sanitizer checks:
`validate_bash_command ""` and `validate_regex_pattern ""` return the empty
error list (no length or content checks run, and `re.compile` is never
consulted), while `validate_file_path ""` returns exactly the empty-path
error (an error-severity entry) and performs no traversal, length, or
workspace checks. -/
theorem empty_input_short_circuit (reCompile : List Nat → Option String) :
    validate_bash_command [] = [] ∧
    validate_regex_pattern reCompile [] = [] ∧
    validate_file_path [] = [emptyPathErr] ∧
    emptyPathErr.severity = "error" :=
  ⟨rfl, rfl, rfl, rfl⟩


/-- C3: each length-bounded check yields its error-severity length error
exactly when the input length strictly exceeds the configured maximum
(10000 for commands, 1000000 for free text, 4096 for file paths); an input
of exactly the maximum length yields no length error. -/
theorem length_error_iff (path command text : List Nat) (fn : String) :
    (cmdLenErr ∈ validate_bash_command command ↔
      command.length > MAX_COMMAND_LENGTH) ∧
    (textLenErr fn ∈ validate_text_length text fn ↔
      text.length > MAX_TEXT_LENGTH) ∧
    (pathLenErr ∈ validate_file_path path ↔
      path.length > MAX_FILE_PATH_LENGTH) := by
  refine ⟨?_, ?_, ?_⟩
  · cases command with
    | nil => simp [validate_bash_command, MAX_COMMAND_LENGTH]
    | cons c cs =>
      simp only [validate_bash_command, List.isEmpty_cons, Bool.false_eq_true,
        if_false, List.mem_append, mem_ite_singleton, List.mem_map,
        List.mem_filter]
      constructor
      · rintro (⟨h, _⟩ | ⟨pd, _, hpd⟩)
        · exact h
        · have hws : ("warning" : String) = "error" :=
            congrArg ValidationError.severity hpd
          exact absurd hws (by decide)
      · intro h
        exact Or.inl ⟨h, trivial⟩
  · simp [validate_text_length, mem_ite_singleton]
  · cases path with
    | nil =>
      simp [validate_file_path, MAX_FILE_PATH_LENGTH, pathLenErr, emptyPathErr]
    | cons c cs =>
      simp only [validate_file_path, List.isEmpty_cons, Bool.false_eq_true,
        if_false, List.mem_append, mem_ite_singleton]
      constructor
      · rintro ((⟨h, _⟩ | ⟨_, h⟩) | ⟨_, h⟩)
        · exact h
        · have hm : pathLenErr.message = traversalErr.message :=
            congrArg ValidationError.message h
          exact absurd hm (by decide)
        · have hm : pathLenErr.message = workspaceWarn.message :=
            congrArg ValidationError.message h
          exact absurd hm (by decide)
      · intro h
        exact Or.inl (Or.inl ⟨h, trivial⟩)

/-- C9: the workspace-root check of `validate_file_path` is a literal
string-prefix test against `/workspace`: the warning appears in the result
exactly when the path starts with `/` and does not start with
`/workspace`; consequently `/workspace-other/file` and `/workspaces/x`
receive no warning even though they lie outside the `/workspace`
directory. -/
theorem workspace_check_literal_root (path : List Nat) :
    (workspaceWarn ∈ validate_file_path path ↔
      (codes "/").isPrefixOf path = true ∧
      (codes "/workspace").isPrefixOf path = false) ∧
    workspaceWarn ∉ validate_file_path (codes "/workspace-other/file") ∧
    workspaceWarn ∉ validate_file_path (codes "/workspaces/x") := by
  refine ⟨?_, by decide, by decide⟩
  cases path with
  | nil =>
    simp [validate_file_path, workspaceWarn, emptyPathErr, List.isPrefixOf, codes]
  | cons c cs =>
    simp only [validate_file_path, List.isEmpty_cons, Bool.false_eq_true,
      if_false, List.mem_append, mem_ite_singleton]
    constructor
    · rintro ((⟨_, h⟩ | ⟨_, h⟩) | ⟨h, _⟩)
      · have hm : workspaceWarn.severity = pathLenErr.severity :=
          congrArg ValidationError.severity h
        exact absurd hm (by decide)
      · have hm : workspaceWarn.severity = traversalErr.severity :=
          congrArg ValidationError.severity h
        exact absurd hm (by decide)
      · rcases Bool.and_eq_true .. |>.mp h with ⟨h1, h2⟩
        exact ⟨h1, by simpa using h2⟩
    · rintro ⟨h1, h2⟩
      exact Or.inr ⟨by simp [h1, h2], trivial⟩

/-- C1: `validate_file_path` rejects an empty path with an error-severity
entry; any path containing the substring `..` always receives the
error-severity path-traversal entry, independent of any rule pattern; and
an absolute path outside the expected workspace root receives the
warning-severity workspace entry, which is non-fatal: the only
error-severity entries such a path can carry are the length and traversal
ones, and when neither applies the result is exactly the single warning. -/
theorem validate_file_path_policy (path : List Nat) :
    (path = [] →
      validate_file_path path = [emptyPathErr] ∧
      emptyPathErr.severity = "error") ∧
    (hasSubstring (codes "..") path = true →
      traversalErr ∈ validate_file_path path ∧
      traversalErr.severity = "error") ∧
    ((codes "/").isPrefixOf path = true →
      (codes "/workspace").isPrefixOf path = false →
      workspaceWarn ∈ validate_file_path path ∧
      workspaceWarn.severity = "warning" ∧
      (∀ e ∈ validate_file_path path, e.severity = "error" →
        e = pathLenErr ∨ e = traversalErr)) ∧
    ((codes "/").isPrefixOf path = true →
      (codes "/workspace").isPrefixOf path = false →
      path.length ≤ MAX_FILE_PATH_LENGTH →
      hasSubstring (codes "..") path = false →
      validate_file_path path = [workspaceWarn]) := by
  refine ⟨fun h => by subst h; exact ⟨rfl, rfl⟩, ?_, ?_, ?_⟩
  · intro h
    cases path with
    | nil => simp [hasSubstring, codes] at h
    | cons c cs =>
      refine ⟨?_, rfl⟩
      simp [validate_file_path, List.mem_append, mem_ite_singleton, h]
  · intro h1 h2
    cases path with
    | nil => simp [codes, List.isPrefixOf] at h1
    | cons c cs =>
      refine ⟨?_, rfl, ?_⟩
      · simp [validate_file_path, List.mem_append, mem_ite_singleton, h1, h2]
      · intro e he hsev
        simp only [validate_file_path, List.isEmpty_cons, Bool.false_eq_true,
          if_false, List.mem_append, mem_ite_singleton] at he
        rcases he with ((⟨_, he⟩ | ⟨_, he⟩) | ⟨_, he⟩)
        · exact Or.inl he
        · exact Or.inr he
        · subst he
          exact absurd hsev (by decide)
  · intro h1 h2 h3 h4
    cases path with
    | nil => simp [codes, List.isPrefixOf] at h1
    | cons c cs =>
      simp only [validate_file_path, List.isEmpty_cons, Bool.false_eq_true,
        if_false, h1, h2, h4, Nat.not_lt.mpr h3, if_true, if_false,
        Bool.not_false, Bool.and_self, List.nil_append]

/-- C2: `validate_bash_command` flags every matching entry of its fixed
`dangerous_patterns` table (recursive root delete, permissive chmod,
`eval`, curl/wget piped into bash) as a warning-severity validation error,
and these flags are advisory: the only error-severity entry the function
can ever return is the length error. -/
theorem bash_danger_flags_advisory (command : List Nat) :
    (∀ pd ∈ dangerous_patterns, reSearchWB pd.1 command = true →
      dangerWarn pd.2 ∈ validate_bash_command command ∧
      (dangerWarn pd.2).severity = "warning") ∧
    (∀ e ∈ validate_bash_command command, e.severity = "error" →
      e = cmdLenErr) := by
  constructor
  · intro pd hpd hm
    cases command with
    | nil => simp [reSearchWB, searchWBFrom, wordBoundary] at hm
    | cons c cs =>
      refine ⟨?_, rfl⟩
      simp only [validate_bash_command, List.isEmpty_cons, Bool.false_eq_true,
        if_false, List.mem_append]
      exact Or.inr (List.mem_map.2 ⟨pd, List.mem_filter.2 ⟨hpd, hm⟩, rfl⟩)
  · intro e he hsev
    cases command with
    | nil => simp [validate_bash_command] at he
    | cons c cs =>
      simp only [validate_bash_command, List.isEmpty_cons, Bool.false_eq_true,
        if_false, List.mem_append, mem_ite_singleton, List.mem_map,
        List.mem_filter] at he
      rcases he with ⟨_, he⟩ | ⟨pd, _, he⟩
      · exact he
      · subst he
        have hws : ("warning" : String) = "error" := hsev
        exact absurd hws (by decide)

/-- C4: `validate_regex_pattern` returns an error-severity entry when the
pattern exceeds 500 characters, an error-severity entry when the pattern
fails to compile (a nonempty pattern on which the abstracted `re.compile`
reports an error), and only a warning-severity, non-rejecting entry for
the catastrophic-backtracking heuristic: every error-severity entry it can
return is the length or the compile error. -/
theorem regex_pattern_validation (reCompile : List Nat → Option String)
    (pattern : List Nat) :
    (pattern.length > MAX_REGEX_LENGTH →
      regexLenErr ∈ validate_regex_pattern reCompile pattern ∧
      regexLenErr.severity = "error") ∧
    (∀ msg, reCompile pattern = some msg → pattern ≠ [] →
      regexCompileErr msg ∈ validate_regex_pattern reCompile pattern ∧
      (regexCompileErr msg).severity = "error") ∧
    (reSearch reBacktrack pattern = true →
      backtrackWarn ∈ validate_regex_pattern reCompile pattern ∧
      backtrackWarn.severity = "warning") ∧
    (∀ e ∈ validate_regex_pattern reCompile pattern, e.severity = "error" →
      e = regexLenErr ∨ ∃ msg, e = regexCompileErr msg) := by
  refine ⟨?_, ?_, ?_, ?_⟩
  · intro h
    cases path : pattern with
    | nil => subst path; simp [MAX_REGEX_LENGTH] at h
    | cons c cs =>
      subst path
      refine ⟨?_, rfl⟩
      simp only [validate_regex_pattern, List.isEmpty_cons, Bool.false_eq_true,
        if_false, List.mem_append, mem_ite_singleton]
      exact Or.inl (Or.inl ⟨h, trivial⟩)
  · intro msg hrc hne
    cases path : pattern with
    | nil => exact absurd path hne
    | cons c cs =>
      subst path
      refine ⟨?_, rfl⟩
      simp only [validate_regex_pattern, List.isEmpty_cons, Bool.false_eq_true,
        if_false, List.mem_append, hrc]
      exact Or.inl (Or.inr (List.mem_singleton.2 rfl))
  · intro h
    cases path : pattern with
    | nil => subst path; simp [reSearch, reBacktrack, RE.nullable, catList, litsC] at h
    | cons c cs =>
      subst path
      refine ⟨?_, rfl⟩
      simp only [validate_regex_pattern, List.isEmpty_cons, Bool.false_eq_true,
        if_false, List.mem_append, mem_ite_singleton]
      exact Or.inr ⟨h, trivial⟩
  · intro e he hsev
    cases path : pattern with
    | nil => subst path; simp [validate_regex_pattern] at he
    | cons c cs =>
      subst path
      simp only [validate_regex_pattern, List.isEmpty_cons, Bool.false_eq_true,
        if_false, List.mem_append, mem_ite_singleton] at he
      rcases he with ((⟨_, he⟩ | he) | ⟨_, he⟩)
      · exact Or.inl he
      · rcases hrc : reCompile (c :: cs) with _ | msg
        · rw [hrc] at he; simp at he
        · rw [hrc] at he
          exact Or.inr ⟨msg, List.mem_singleton.1 he⟩
      · subst he
        exact absurd hsev (by decide)

/-- C5: the sanitizer never raises: each of the four validators is a total
function returning a (possibly empty) list of `ValidationError` records —
every element of every result carries one of the two declared severities,
so all failure is represented as data. -/
theorem validators_return_error_data (reCompile : List Nat → Option String)
    (path command pattern text : List Nat) (fn : String) :
    (∀ e ∈ validate_file_path path,
      e.severity = "error" ∨ e.severity = "warning") ∧
    (∀ e ∈ validate_bash_command command,
      e.severity = "error" ∨ e.severity = "warning") ∧
    (∀ e ∈ validate_regex_pattern reCompile pattern,
      e.severity = "error" ∨ e.severity = "warning") ∧
    (∀ e ∈ validate_text_length text fn,
      e.severity = "error" ∨ e.severity = "warning") := by
  refine ⟨?_, ?_, ?_, ?_⟩
  · intro e he
    cases path with
    | nil =>
      simp only [validate_file_path, List.isEmpty_nil, if_true,
        List.mem_singleton] at he
      subst he; exact Or.inl rfl
    | cons c cs =>
      simp only [validate_file_path, List.isEmpty_cons, Bool.false_eq_true,
        if_false, List.mem_append, mem_ite_singleton] at he
      rcases he with ((⟨_, he⟩ | ⟨_, he⟩) | ⟨_, he⟩) <;> subst he
      · exact Or.inl rfl
      · exact Or.inl rfl
      · exact Or.inr rfl
  · intro e he
    cases command with
    | nil => simp [validate_bash_command] at he
    | cons c cs =>
      simp only [validate_bash_command, List.isEmpty_cons, Bool.false_eq_true,
        if_false, List.mem_append, mem_ite_singleton, List.mem_map,
        List.mem_filter] at he
      rcases he with ⟨_, he⟩ | ⟨pd, _, he⟩ <;> subst he
      · exact Or.inl rfl
      · exact Or.inr rfl
  · intro e he
    cases pattern with
    | nil => simp [validate_regex_pattern] at he
    | cons c cs =>
      simp only [validate_regex_pattern, List.isEmpty_cons, Bool.false_eq_true,
        if_false, List.mem_append, mem_ite_singleton] at he
      rcases he with ((⟨_, he⟩ | he) | ⟨_, he⟩)
      · subst he; exact Or.inl rfl
      · rcases hrc : reCompile (c :: cs) with _ | msg <;> rw [hrc] at he
        · simp at he
        · rw [List.mem_singleton.1 he]; exact Or.inl rfl
      · subst he; exact Or.inr rfl
  · intro e he
    simp only [validate_text_length, mem_ite_singleton] at he
    rw [he.2]; exact Or.inl rfl

/-- C6: evaluation is a pure function of its inputs: each `InputValidator`
static method, invoked in runtimes with arbitrary (and arbitrarily
different) ambient state, returns the same list of `ValidationError`
records whenever the string input is the same — there is no clock-,
environment-, or state-dependent branching, so repeated calls on a fixed
input yield identical results. -/
theorem validators_pure (env1 env2 : RuntimeEnv)
    (reCompile : List Nat → Option String)
    (path command pattern text : List Nat) (fn : String) :
    run_validate_file_path env1 path = run_validate_file_path env2 path ∧
    run_validate_bash_command env1 command =
      run_validate_bash_command env2 command ∧
    run_validate_regex_pattern env1 reCompile pattern =
      run_validate_regex_pattern env2 reCompile pattern ∧
    run_validate_text_length env1 text fn =
      run_validate_text_length env2 text fn ∧
    run_validate_file_path env1 path = validate_file_path path :=
  ⟨rfl, rfl, rfl, rfl, rfl⟩

/-- C7: the PreToolUse transport boundary is fail-open: whatever the body
of `pretooluse.py` does — succeed, fail to parse stdin JSON, miss a
configuration file, hit a permission error, raise any other exception, or
fail at import time — the boundary prints exactly one JSON record to
stdout and exits with status 0, never blocking the intercepted action
because of an internal hook error. -/
theorem pretooluse_fail_open (b : BodyOutcome) :
    (pretooluse_boundary b).exitCode = 0 ∧
    (pretooluse_boundary b).stdout.length = 1 := by
  cases b <;> exact ⟨rfl, rfl⟩

theorem pyLower_idem (n : Nat) : pyLower (pyLower n) = pyLower n := by
  by_cases h : 65 ≤ n ∧ n ≤ 90
  · have h1 : pyLower n = n + 32 := if_pos h
    rw [h1]
    exact if_neg (by omega)
  · have h1 : pyLower n = n := if_neg h
    rw [h1]
    exact h1

theorem pySpace_pyLower (n : Nat) : pySpace (pyLower n) = pySpace n := by
  by_cases h : 65 ≤ n ∧ n ≤ 90
  · have h1 : pyLower n = n + 32 := if_pos h
    rw [h1]
    simp only [pySpace, decide_eq_decide]
    omega
  · have h1 : pyLower n = n := if_neg h
    rw [h1]

theorem pyWord_pyLower (n : Nat) : pyWord (pyLower n) = pyWord n := by
  by_cases h : 65 ≤ n ∧ n ≤ 90
  · have h1 : pyLower n = n + 32 := if_pos h
    rw [h1]
    simp only [pyWord, decide_eq_decide]
    omega
  · have h1 : pyLower n = n := if_neg h
    rw [h1]

/-- Character classes unaffected by ASCII lower-casing of the input: all
classes of the `re.IGNORECASE` pattern table (everything except a
case-sensitive literal). -/
def CC.ci : CC → Bool
  | .litC _ => false
  | _ => true

theorem CC.matches_pyLower (cc : CC) (h : cc.ci = true) (n : Nat) :
    cc.matches (pyLower n) = cc.matches n := by
  cases cc with
  | litI c => simp only [CC.matches, decide_eq_decide, pyLower_idem]
  | litC c => simp [CC.ci] at h
  | space => exact pySpace_pyLower n
  | dot =>
    by_cases h2 : 65 ≤ n ∧ n ≤ 90
    · have h1 : pyLower n = n + 32 := if_pos h2
      rw [h1]
      simp only [CC.matches, decide_eq_decide]
      omega
    · have h1 : pyLower n = n := if_neg h2
      rw [h1]

/-- Regular expressions built only from classes unaffected by ASCII
lower-casing. -/
def RE.ci : RE → Bool
  | .emp => true
  | .eps => true
  | .ch cc => cc.ci
  | .cat a b => a.ci && b.ci
  | .alt a b => a.ci && b.ci
  | .star a => a.ci

theorem RE.ci_deriv (a : RE) (n : Nat) (h : a.ci = true) :
    (a.deriv n).ci = true := by
  induction a with
  | emp => rfl
  | eps => rfl
  | ch cc => simp only [RE.deriv]; split <;> rfl
  | cat a b iha ihb =>
    simp only [RE.ci, Bool.and_eq_true] at h
    simp only [RE.deriv]
    split
    · simp only [RE.ci, Bool.and_eq_true]
      exact ⟨⟨iha h.1, h.2⟩, ihb h.2⟩
    · simp only [RE.ci, Bool.and_eq_true]
      exact ⟨iha h.1, h.2⟩
  | alt a b iha ihb =>
    simp only [RE.ci, Bool.and_eq_true] at h
    simp only [RE.deriv, RE.ci, Bool.and_eq_true]
    exact ⟨iha h.1, ihb h.2⟩
  | star a iha =>
    simp only [RE.ci] at h
    simp only [RE.deriv, RE.ci, Bool.and_eq_true]
    exact ⟨iha h, h⟩

theorem RE.deriv_pyLower (a : RE) (n : Nat) (h : a.ci = true) :
    a.deriv (pyLower n) = a.deriv n := by
  induction a with
  | emp => rfl
  | eps => rfl
  | ch cc => simp only [RE.deriv, CC.matches_pyLower cc h n]
  | cat a b iha ihb =>
    simp only [RE.ci, Bool.and_eq_true] at h
    simp only [RE.deriv, iha h.1, ihb h.2]
  | alt a b iha ihb =>
    simp only [RE.ci, Bool.and_eq_true] at h
    simp only [RE.deriv, iha h.1, ihb h.2]
  | star a iha =>
    simp only [RE.ci] at h
    simp only [RE.deriv, iha h]

theorem matchesSomePre_pyLower (s : List Nat) : ∀ a : RE, a.ci = true →
    matchesSomePre a (s.map pyLower) = matchesSomePre a s := by
  induction s with
  | nil => intro a _; rfl
  | cons c cs ih =>
    intro a h
    simp only [List.map_cons, matchesSomePre]
    rw [RE.deriv_pyLower a c h, ih (a.deriv c) (RE.ci_deriv a c h)]

theorem wordBoundary_pyLower_none (l : Option Nat) :
    wordBoundary (l.map pyLower) none = wordBoundary l none := by
  cases l <;> simp [wordBoundary, pyWord_pyLower]

theorem wordBoundary_pyLower_some (l : Option Nat) (c : Nat) :
    wordBoundary (l.map pyLower) (some (pyLower c)) =
      wordBoundary l (some c) := by
  cases l <;> simp [wordBoundary, pyWord_pyLower]

theorem searchWBFrom_pyLower (s : List Nat) : ∀ (a : RE), a.ci = true →
    ∀ (prev : Option Nat),
    searchWBFrom a (prev.map pyLower) (s.map pyLower) =
      searchWBFrom a prev s := by
  induction s with
  | nil =>
    intro a _ prev
    simp only [List.map_nil, searchWBFrom, wordBoundary_pyLower_none]
  | cons c cs ih =>
    intro a h prev
    simp only [List.map_cons, searchWBFrom]
    rw [wordBoundary_pyLower_some prev c, ← List.map_cons,
      matchesSomePre_pyLower (c :: cs) a h,
      show some (pyLower c) = (some c).map pyLower from rfl,
      ih a h (some c)]

theorem reSearchWB_pyLower (a : RE) (h : a.ci = true) (s : List Nat) :
    reSearchWB a (s.map pyLower) = reSearchWB a s :=
  searchWBFrom_pyLower s a h none

/-- C8: dangerous-shell-idiom detection is case-insensitive: ASCII
lower-casing a command changes nothing in the output of
`validate_bash_command`, so a command matching one of the fixed dangerous
patterns under case folding (for example `RM -RF /` or `CHMOD 777`) is
flagged exactly as its lower-case form is. -/
theorem bash_ignorecase (command : List Nat) :
    validate_bash_command (command.map pyLower) =
      validate_bash_command command ∧
    validate_bash_command (codes "RM -RF /") =
      validate_bash_command (codes "rm -rf /") ∧
    validate_bash_command (codes "CHMOD 777") =
      validate_bash_command (codes "chmod 777") := by
  refine ⟨?_, by decide, by decide⟩
  cases command with
  | nil => rfl
  | cons c cs =>
    have hfil : List.filter
        (fun pd => reSearchWB pd.1 (pyLower c :: List.map pyLower cs))
        dangerous_patterns =
        List.filter (fun pd => reSearchWB pd.1 (c :: cs))
        dangerous_patterns := by
      apply List.filter_congr
      intro pd hpd
      have hci : pd.1.ci = true := by
        fin_cases hpd <;> decide
      have hre := reSearchWB_pyLower pd.1 hci (c :: cs)
      simpa using hre
    simp only [validate_bash_command, List.map_cons, List.isEmpty_cons,
      Bool.false_eq_true, if_false, List.length_cons, List.length_map, hfil]

/-- Witness for C1 at concrete paths: a traversal path, an absolute path
outside the workspace, and the empty path. -/
theorem validate_file_path_policy_witness :
    traversalErr ∈ validate_file_path (codes "a/../b") ∧
    workspaceWarn ∈ validate_file_path (codes "/etc/passwd") ∧
    validate_file_path (codes "/etc/passwd") = [workspaceWarn] ∧
    validate_file_path [] = [emptyPathErr] :=
  ⟨((validate_file_path_policy (codes "a/../b")).2.1 (by decide)).1,
   ((validate_file_path_policy (codes "/etc/passwd")).2.2.1 (by decide)
     (by decide)).1,
   (validate_file_path_policy (codes "/etc/passwd")).2.2.2 (by decide)
     (by decide) (by decide) (by decide),
   ((validate_file_path_policy []).1 rfl).1⟩

/-- Witness for C2 at concrete commands matching the first and the fourth
dangerous pattern. -/
theorem bash_danger_flags_advisory_witness :
    dangerWarn "Recursive force delete from root" ∈
      validate_bash_command (codes "rm -rf /") ∧
    dangerWarn "Piping remote scripts to bash" ∈
      validate_bash_command (codes "curl http://x | bash") :=
  ⟨((bash_danger_flags_advisory (codes "rm -rf /")).1
      (reRmRf, "Recursive force delete from root") (by decide) (by decide)).1,
   ((bash_danger_flags_advisory (codes "curl http://x | bash")).1
      (reCurl, "Piping remote scripts to bash") (by decide) (by decide)).1⟩

/-- Witness for C3: a command one character over the maximum carries the
length error. -/
theorem length_error_iff_witness :
    cmdLenErr ∈ validate_bash_command (List.replicate 10001 97) :=
  (length_error_iff [] (List.replicate 10001 97) [] "t").1.mpr
    (by rw [List.length_replicate]; decide)

/-- Witness for C4 at concrete patterns: an over-long pattern, a pattern
the abstracted compiler rejects, and a backtracking-risk pattern. -/
theorem regex_pattern_validation_witness :
    regexLenErr ∈
      validate_regex_pattern (fun _ => none) (List.replicate 501 97) ∧
    regexCompileErr "missing parenthesis" ∈
      validate_regex_pattern
        (fun p => if p = codes "(unclosed" then some "missing parenthesis"
          else none) (codes "(unclosed") ∧
    backtrackWarn ∈ validate_regex_pattern (fun _ => none) (codes "(.+))") :=
  ⟨((regex_pattern_validation (fun _ => none) (List.replicate 501 97)).1
      (by decide)).1,
   ((regex_pattern_validation
      (fun p => if p = codes "(unclosed" then some "missing parenthesis"
        else none) (codes "(unclosed")).2.1 "missing parenthesis"
      (by decide) (by decide)).1,
   ((regex_pattern_validation (fun _ => none) (codes "(.+))")).2.2.1
      (by decide)).1⟩

/-- Witness for C5: concrete error records produced by the four
validators all carry one of the two declared severities. -/
theorem validators_return_error_data_witness :
    (emptyPathErr.severity = "error" ∨ emptyPathErr.severity = "warning") ∧
    ((dangerWarn "Arbitrary code execution via eval").severity = "error" ∨
      (dangerWarn "Arbitrary code execution via eval").severity = "warning") ∧
    (backtrackWarn.severity = "error" ∨
      backtrackWarn.severity = "warning") ∧
    ((textLenErr "content").severity = "error" ∨
      (textLenErr "content").severity = "warning") :=
  ⟨(validators_return_error_data (fun _ => none) [] [] [] [] "t").1
      emptyPathErr (by decide),
   (validators_return_error_data (fun _ => none) [] (codes "eval x") [] [] "t").2.1
      (dangerWarn "Arbitrary code execution via eval") (by decide),
   (validators_return_error_data (fun _ => none) [] [] (codes "(.+))") [] "t").2.2.1
      backtrackWarn (by decide),
   (validators_return_error_data (fun _ => none) [] [] []
      (List.replicate 1000001 97) "content").2.2.2 (textLenErr "content")
      (by
        simp only [validate_text_length, List.length_replicate,
          MAX_TEXT_LENGTH, mem_ite_singleton]
        exact ⟨by norm_num, trivial⟩)⟩

/-- Witness for C9: a concrete absolute path outside the workspace root
receives the warning. -/
theorem workspace_check_literal_root_witness :
    workspaceWarn ∈ validate_file_path (codes "/etc") :=
  (workspace_check_literal_root (codes "/etc")).1.mpr
    ⟨by decide, by decide⟩
